import Mathlib

/-!
A shallow embedding of the client-side session and data-synchronization
layer of the avocado repository (the React/axios code in
`src/docs/django-react.md`): the axios instance with its request
interceptor (`apiConfig.js`), the authentication service and the
components that call it (`authService.js`, `Login.js`, `Register.js`,
`App.js`), and the todo CRUD handlers (`todoService.js`, `TodoList.js`,
`TodoForm.js`).  Asynchronous server round trips are embedded by passing
the server's response as an explicit argument; each React handler becomes
a pure function from its inputs (captured component state plus the
response) to the state it writes back, or to a small trace of the atomic
steps it performs, in program order, when the claim under study is about
the order of effects.
-/

/-- A todo resource as the client sees it: the server-assigned `id` is
`none` for an entity that has not been created on the server. -/
structure Todo where
  id : Option Nat
  title : String
  description : String
  completed : Bool
deriving DecidableEq, Repr

/-- The settled state of an awaited axios promise: fulfilled with the
response data, or rejected — either with an HTTP error status (axios
rejects every non-2xx response) or with a network/transport error. -/
inductive AxiosOutcome (α : Type) where
  | fulfilled (data : α)
  | rejectedStatus (code : Nat)
  | rejectedNetwork
deriving DecidableEq, Repr

/-- What the server does with one request: answer with an HTTP status and
a body, or fail at the transport level (no response received). -/
inductive ServerBehavior (α : Type) where
  | http (code : Nat) (data : α)
  | network
deriving DecidableEq, Repr

/-- axios fulfills the request promise exactly for 2xx statuses. -/
def isSuccessStatus (code : Nat) : Bool :=
  200 ≤ code && code < 300

/-- How axios settles a promise given the server's behavior: a 2xx
response fulfills with the body, any other status rejects with that
status, transport failure rejects with a network error. -/
def settle {α : Type} : ServerBehavior α → AxiosOutcome α
  | .http code data =>
      if isSuccessStatus code then .fulfilled data else .rejectedStatus code
  | .network => .rejectedNetwork

/-- `apiConfig.js` request interceptor: if a token is present in the
store (`localStorage.getItem('token')`), the outbound request carries an
`Authorization: Token <token>` header; otherwise no auth header. -/
def attachAuth (token : Option String) : List (String × String) :=
  match token with
  | some t => [("Authorization", "Token " ++ t)]
  | none => []

/-- The observable effect of one request through the `api` axios
instance: the headers that were attached, the settled outcome, and the
token store afterwards. -/
structure ApiResult (α : Type) where
  sentHeaders : List (String × String)
  outcome : AxiosOutcome α
  tokenAfter : Option String
deriving DecidableEq, Repr

/-- One request through the `api` instance of `apiConfig.js`.  The
request interceptor reads the token store and attaches the header; there
is no response interceptor, so the outcome is exactly axios's settling of
the server's response and the token store is left as it was. -/
def apiRequest {α : Type} (token : Option String) (resp : ServerBehavior α) :
    ApiResult α :=
  { sentHeaders := attachAuth token
    outcome := settle resp
    tokenAfter := token }

/-- `authService.js` `isAuthenticated`:
`localStorage.getItem('token') !== null`. -/
def isAuthenticated (token : Option String) : Bool :=
  token ≠ none

/-- The body of a successful response of the `token/` endpoint:
`response.data` destructured as `{ token }`. -/
structure LoginData where
  token : String
deriving DecidableEq, Repr

/-- `authService.js` `login`: awaits `api.post('token/', ...)`; on
fulfillment stores `response.data.token` into the token store and returns
the data; on rejection the error propagates and the store is untouched.
Returns the store after the call together with the outcome seen by the
caller. -/
def loginService (resp : AxiosOutcome LoginData) (token : Option String) :
    Option String × AxiosOutcome LoginData :=
  match resp with
  | .fulfilled d => (some d.token, .fulfilled d)
  | r => (token, r)

/-- `authService.js` `logout`: `localStorage.removeItem('token')`. -/
def logoutService (_token : Option String) : Option String :=
  none

/-- `authService.js` `register`: `api.post('register/', ...)` and return
the response; the token store is never touched. -/
def registerService (_username _email _password : String)
    (resp : AxiosOutcome Unit) (token : Option String) :
    Option String × AxiosOutcome Unit :=
  (token, resp)

/-- The client's authentication-relevant state: the token store
(`localStorage`) and the `isAuth` React state of `App.js`. -/
structure AuthState where
  token : Option String
  isAuth : Bool
deriving DecidableEq, Repr

/-- The state at process start: empty token store, and `App.js`
initializes `isAuth` with `useState(isAuthenticated())`, hence `false`. -/
def initialAuthState : AuthState :=
  { token := none, isAuth := false }

/-- `Login.js` `handleSubmit`: awaits `login(username, password)`; on
success calls `setIsAuthenticated(true)` and navigates; on a caught
error only sets the error message, leaving token and `isAuth` alone. -/
def handleLoginSubmit (resp : AxiosOutcome LoginData) (s : AuthState) :
    AuthState :=
  match loginService resp s.token with
  | (tok, .fulfilled _) => { token := tok, isAuth := true }
  | (tok, _) => { s with token := tok }

/-- The client state midway through `App.js` `handleLogout`: after the
synchronous `logout()` call on the token store, before
`setIsAuthenticated(false)` has run. -/
def afterLogoutService (s : AuthState) : AuthState :=
  { s with token := logoutService s.token }

/-- `App.js` `handleLogout`: `logout()` (clearing the token store
synchronously), then `setIsAuthenticated(false)`. -/
def handleLogout (s : AuthState) : AuthState :=
  { afterLogoutService s with isAuth := false }

/-- The auth operations a user can drive: a login submission (with the
server's settled answer) or a logout click. -/
inductive AuthEvent where
  | login (resp : AxiosOutcome LoginData)
  | logout
deriving Repr

/-- One user-driven auth operation applied to the client state. -/
def stepAuth (s : AuthState) : AuthEvent → AuthState
  | .login r => handleLoginSubmit r s
  | .logout => handleLogout s

/-- A whole sequence of login/logout operations from a starting state. -/
def runAuth (s : AuthState) (evs : List AuthEvent) : AuthState :=
  evs.foldl stepAuth s

/-- Possible navigation effect of a handler. -/
inductive Nav where
  | stay
  | to (path : String)
deriving DecidableEq, Repr

/-- `Register.js` `handleSubmit`: awaits `register(...)`; on success
navigates to `/login`; on a caught error sets the error message.  The
auth state is returned together with the navigation and the error
message written. -/
def handleRegisterSubmit (username email password : String)
    (resp : AxiosOutcome Unit) (s : AuthState) :
    AuthState × Nav × Option String :=
  match registerService username email password resp s.token with
  | (tok, .fulfilled _) => ({ s with token := tok }, .to "/login", none)
  | (tok, _) => ({ s with token := tok }, .stay, some "Registration failed")

/-- The views routed by `App.js`: `/`, `/login`, `/register`, `/todos`. -/
inductive View where
  | root
  | loginView
  | registerView
  | todos
deriving DecidableEq, Repr

/-- What a route's element resolves to: render the view, or a
`<Navigate to=.../>` redirect. -/
inductive Decision where
  | allow
  | redirect (target : View)
deriving DecidableEq, Repr

/-- The route table of `App.js` as a function of the view and the
`isAuth` flag: `/` navigates to `/todos` or `/login`; `/login` and
`/register` navigate to `/todos` when authenticated and render otherwise;
`/todos` renders when authenticated and navigates to `/login`
otherwise. -/
def routeFor (v : View) (isAuth : Bool) : Decision :=
  match v, isAuth with
  | .root, true => .redirect .todos
  | .root, false => .redirect .loginView
  | .loginView, true => .redirect .todos
  | .loginView, false => .allow
  | .registerView, true => .redirect .todos
  | .registerView, false => .allow
  | .todos, true => .allow
  | .todos, false => .redirect .loginView

/-- The spec's session state machine (§4.2), used to state claims that
quantify over session states; the code itself only consults the boolean
`isAuthenticated()`. -/
inductive SessionState where
  | anonymous
  | authenticating
  | authenticated
  | expired
deriving DecidableEq, Repr

/-- The boolean the `App.js` route table sees for a given spec-level
session state: only `Authenticated` counts as logged in. -/
def sessionIsAuth : SessionState → Bool
  | .authenticated => true
  | _ => false

/-- One atomic step performed by a todo handler, in program order:
issuing a request to the server, writing the todos snapshot
(`setTodos`), writing the component error message (`setError`), or
clearing the form fields. -/
inductive UiStep where
  | issueCreate (title description : String)
  | issueUpdate (id : Option Nat) (payload : Todo)
  | issueDelete (id : Nat)
  | setTodos (l : List Todo)
  | setError (msg : String)
  | clearForm
deriving DecidableEq, Repr

/-- Is the step the dispatch of a request? -/
def isIssue : UiStep → Bool
  | .issueCreate _ _ => true
  | .issueUpdate _ _ => true
  | .issueDelete _ => true
  | _ => false

/-- Is the step the dispatch of an update request for resource `i`? -/
def isIssueUpdateFor (i : Option Nat) : UiStep → Bool
  | .issueUpdate j _ => j == i
  | _ => false

/-- Is the step the local completion (snapshot write or error write) of
an awaited request? -/
def isCompletion : UiStep → Bool
  | .setTodos _ => true
  | .setError _ => true
  | _ => false

/-- Effect of one step on the todos snapshot: only `setTodos` writes
it. -/
def applyStep (todos : List Todo) : UiStep → List Todo
  | .setTodos l => l
  | _ => todos

/-- The snapshot after a sequence of steps. -/
def runSteps (todos : List Todo) (steps : List UiStep) : List Todo :=
  steps.foldl applyStep todos

/-- The error message shown after a sequence of steps (last `setError`
wins; `none` when no error was ever set). -/
def errorAfter (steps : List UiStep) : Option String :=
  steps.foldl (fun e s => match s with | .setError m => some m | _ => e) none

/-- The snapshot at the moment the first request of the trace is
dispatched, `none` when the trace never dispatches one. -/
def snapshotAtFirstIssue : List Todo → List UiStep → Option (List Todo)
  | _, [] => none
  | todos, s :: rest =>
      if isIssue s then some todos
      else snapshotAtFirstIssue (applyStep todos s) rest

/-- How many update requests for resource `i` are outstanding after the
given steps: dispatches seen minus completions seen. -/
def outstandingUpdatesFor (i : Option Nat) (steps : List UiStep) : Nat :=
  (steps.filter (isIssueUpdateFor i)).length - (steps.filter isCompletion).length

/-- The guard `if (!title.trim()) return;` of `TodoForm.js`:
`title.trim()` is falsy exactly when every character of the title is
whitespace. -/
def blankTitle (title : String) : Bool :=
  title.data.all Char.isWhitespace

/-- `TodoForm.js` `handleSubmit` (with `TodoList.js` `addTodo` as the
`onAddTodo` callback), as its trace of atomic steps: an empty trimmed
title returns early; otherwise `createTodo` is awaited — on fulfillment
`addTodo` prepends the server-returned todo to the captured `todos` and
the form is cleared; on a caught error the error message is set. -/
def handleSubmitTrace (title description : String) (todos : List Todo)
    (resp : AxiosOutcome Todo) : List UiStep :=
  if blankTitle title then []
  else
    .issueCreate title description ::
      match resp with
      | .fulfilled newTodo => [.setTodos (newTodo :: todos), .clearForm]
      | _ => [.setError "Failed to create todo"]

/-- `TodoList.js` `handleDelete`, as its trace of atomic steps:
`deleteTodo(id)` is awaited first — on fulfillment `setTodos` filters the
entry with that id out of the captured `todos`; on a caught error the
error message is set. -/
def handleDeleteTrace (id : Nat) (todos : List Todo)
    (resp : AxiosOutcome Unit) : List UiStep :=
  .issueDelete id ::
    match resp with
    | .fulfilled _ => [.setTodos (todos.filter (fun t => t.id ≠ some id))]
    | _ => [.setError "Failed to delete todo"]

/-- `TodoList.js` `handleToggleComplete`, as its trace of atomic steps:
the updated todo is computed locally with the completion flag flipped,
`updateTodo` is awaited — on fulfillment `setTodos` writes the captured
`todos` with the locally computed `updatedTodo` substituted for the
matching id (the server's response body is ignored); on a caught error
the error message is set. -/
def handleToggleTrace (todo : Todo) (todos : List Todo)
    (resp : AxiosOutcome Todo) : List UiStep :=
  let updatedTodo := { todo with completed := !todo.completed }
  .issueUpdate todo.id updatedTodo ::
    match resp with
    | .fulfilled _ =>
        [.setTodos (todos.map fun t =>
          if t.id = todo.id then updatedTodo else t)]
    | _ => [.setError "Failed to update todo"]

/-- Fuel-indexed worker for `interleavings`; the fuel always suffices
when it is at least the two lengths combined. -/
def interleavingsAux {α : Type} : Nat → List α → List α → List (List α)
  | 0, xs, ys => [xs ++ ys]
  | _ + 1, [], ys => [ys]
  | _ + 1, x :: xs, [] => [x :: xs]
  | n + 1, x :: xs, y :: ys =>
      (interleavingsAux n xs (y :: ys)).map (x :: ·) ++
        (interleavingsAux n (x :: xs) ys).map (y :: ·)

/-- All interleavings of two step sequences that preserve the order
within each: the executions the single-threaded cooperative scheduler
(§5) can produce for two concurrently awaited handlers. -/
def interleavings {α : Type} (xs ys : List α) : List (List α) :=
  interleavingsAux (xs.length + ys.length) xs ys


/-! Concrete fixtures used by counterexamples and witnesses. -/

/-- The todo the spec's scenario creates on the server:
`{id:7, title:"Buy milk", completed:false}`. -/
def todo7 : Todo :=
  { id := some 7, title := "Buy milk", description := "", completed := false }

/-- A todo already present in the snapshot, used for update races. -/
def todo1 : Todo :=
  { id := some 1, title := "a", description := "", completed := false }

/-- A server reply to an update of `todo1` whose representation differs
from the client's locally computed value (the server renamed the
title). -/
def serverTodo1 : Todo :=
  { id := some 1, title := "server-renamed", description := "", completed := true }

/-- `todo1` with its completion flag toggled, the value
`handleToggleComplete` computes locally. -/
def upd1 : Todo :=
  { todo1 with completed := true }

/-- A schedule interleaving two toggles of `todo1`: both requests are
dispatched before either completes. -/
def racySchedule : List UiStep :=
  [.issueUpdate (some 1) upd1, .issueUpdate (some 1) upd1,
   .setTodos [upd1], .setTodos [upd1]]

/-! Helper lemmas. -/

/-- A single auth operation preserves consistency of the token store
with the `isAuth` flag. -/
theorem stepAuth_preserves (s : AuthState) (e : AuthEvent)
    (h : s.token.isSome = s.isAuth) :
    (stepAuth s e).token.isSome = (stepAuth s e).isAuth := by
  cases e with
  | login r =>
      cases r <;> simp [stepAuth, handleLoginSubmit, loginService, h]
  | logout =>
      simp [stepAuth, handleLogout, afterLogoutService, logoutService]

/-- The token/`isAuth` consistency invariant is preserved along every
sequence of auth operations. -/
theorem runAuth_invariant (evs : List AuthEvent) (s : AuthState)
    (h : s.token.isSome = s.isAuth) :
    (runAuth s evs).token.isSome = (runAuth s evs).isAuth := by
  induction evs generalizing s with
  | nil => exact h
  | cons e rest ih =>
      exact ih (stepAuth s e) (stepAuth_preserves s e h)

/-- Substituting for an id that matches no element of the list leaves
the list unchanged. -/
theorem map_id_of_no_match (u : Todo) (i : Option Nat) (todos : List Todo)
    (h : ∀ t ∈ todos, t.id ≠ i) :
    todos.map (fun t => if t.id = i then u else t) = todos := by
  induction todos with
  | nil => rfl
  | cons a l ih =>
      simp [h a (List.mem_cons_self a l),
        ih (fun t ht => h t (List.mem_cons_of_mem a ht))]

/-! Claim theorems. -/

/-- C1 counterexample: a request carrying token `"abc123"` that the
server answers with 401 leaves the token store untouched —
`localStorage` still holds `"abc123"` and `isAuthenticated()` still
reports `true` — contradicting the claim that the 401 response clears
the TokenStore and drives the session to Expired. -/
theorem c1_counterexample :
    (apiRequest (α := Unit) (some "abc123") (.http 401 ())).tokenAfter
        = some "abc123" ∧
    (apiRequest (α := Unit) (some "abc123") (.http 401 ())).tokenAfter
        ≠ none ∧
    isAuthenticated
        (apiRequest (α := Unit) (some "abc123") (.http 401 ())).tokenAfter
          = true := by
  decide

/-- C1 amended: a response with status 401 or 403 rejects the request
promise with that status, which the caller's `catch` observes; the token
store is left exactly as it was and `isAuthenticated()` is unchanged —
there is no response interceptor, no Expired transition and no
token-clearing on authentication failure. -/
theorem c1_auth_failure_is_surfaced_but_clears_nothing
    (α : Type) (token : Option String) (code : Nat) (data : α)
    (h : code = 401 ∨ code = 403) :
    (apiRequest token (.http code data)).outcome = .rejectedStatus code ∧
    (apiRequest token (.http code data)).tokenAfter = token ∧
    isAuthenticated (apiRequest token (.http code data)).tokenAfter
      = isAuthenticated token := by
  rcases h with h | h <;> subst h <;>
    exact ⟨by simp [apiRequest, settle, isSuccessStatus], rfl, rfl⟩

/-- Witness for C1 amended at token `"abc123"`, status 401. -/
theorem c1_auth_failure_is_surfaced_but_clears_nothing_witness :
    (apiRequest (α := Unit) (some "abc123") (.http 401 ())).outcome
        = .rejectedStatus 401 ∧
    (apiRequest (α := Unit) (some "abc123") (.http 401 ())).tokenAfter
        = some "abc123" ∧
    isAuthenticated
        (apiRequest (α := Unit) (some "abc123") (.http 401 ())).tokenAfter
          = isAuthenticated (some "abc123") :=
  c1_auth_failure_is_surfaced_but_clears_nothing Unit (some "abc123") 401 ()
    (Or.inl rfl)

/-- C2: along every sequence of login (fulfilled or rejected) and logout
operations from the initial state, the token store holds a credential
exactly when the session flag says authenticated; `handleLogout` clears
the token store in its first synchronous step, while the `isAuth`
transition has not yet completed; and a rejected credential exchange
from the initial state leaves the token store empty. -/
theorem c2_token_iff_authenticated :
    (∀ evs : List AuthEvent,
      (runAuth initialAuthState evs).token.isSome
        = (runAuth initialAuthState evs).isAuth) ∧
    (∀ s : AuthState,
      (afterLogoutService s).token = none ∧
      (afterLogoutService s).isAuth = s.isAuth ∧
      handleLogout s = { token := none, isAuth := false }) ∧
    (∀ code : Nat,
      (handleLoginSubmit (.rejectedStatus code) initialAuthState).token
        = none) ∧
    (handleLoginSubmit .rejectedNetwork initialAuthState).token = none := by
  refine ⟨fun evs => runAuth_invariant evs initialAuthState rfl, fun s => ?_,
    fun code => rfl, rfl⟩
  exact ⟨rfl, rfl, rfl⟩

/-- C3: admission is the pure route table of `App.js`: when the session
state is not Authenticated the `todos` view redirects to the login view,
and when it is Authenticated the login and registration views redirect
to `todos` while `todos` itself is allowed. -/
theorem c3_route_guard_table :
    ∀ s : SessionState,
      (routeFor .todos (sessionIsAuth s)
        = if s = .authenticated then .allow else .redirect .loginView) ∧
      (routeFor .loginView (sessionIsAuth s)
        = if s = .authenticated then .redirect .todos else .allow) ∧
      (routeFor .registerView (sessionIsAuth s)
        = if s = .authenticated then .redirect .todos else .allow) := by
  intro s
  cases s <;> exact ⟨rfl, rfl, rfl⟩

/-- C4 counterexample: submitting "Buy milk" against the empty snapshot
dispatches the create request while the snapshot is still empty — no
pending entry (a todo without an id) is at its head when the request is
issued. -/
theorem c4_counterexample :
    ¬ ∃ pending : Todo, pending.id = none ∧
        snapshotAtFirstIssue []
          (handleSubmitTrace "Buy milk" "" [] (.fulfilled todo7))
            = some [pending] := by
  rintro ⟨p, _, h⟩
  rw [show snapshotAtFirstIssue []
        (handleSubmitTrace "Buy milk" "" [] (.fulfilled todo7))
          = some [] from by decide] at h
  simp at h

/-- C4 amended: for a non-blank title, `handleSubmit` dispatches the
create request against the unchanged snapshot (no pending entry is
inserted first); on fulfillment the server-returned todo — already
carrying its id — is prepended to the snapshot; on rejection the
snapshot is unchanged and the failure is surfaced as the create error
message. -/
theorem c4_create_inserts_only_after_success
    (title description : String) (todos : List Todo) (t : Todo) (code : Nat)
    (h : blankTitle title = false) :
    snapshotAtFirstIssue todos
        (handleSubmitTrace title description todos (.fulfilled t))
          = some todos ∧
    runSteps todos (handleSubmitTrace title description todos (.fulfilled t))
        = t :: todos ∧
    runSteps todos
        (handleSubmitTrace title description todos (.rejectedStatus code))
          = todos ∧
    runSteps todos (handleSubmitTrace title description todos .rejectedNetwork)
        = todos ∧
    errorAfter (handleSubmitTrace title description todos (.rejectedStatus code))
        = some "Failed to create todo" := by
  refine ⟨?_, ?_, ?_, ?_, ?_⟩ <;>
    simp [handleSubmitTrace, h, snapshotAtFirstIssue, isIssue, runSteps,
      applyStep, errorAfter]

/-- Witness for C4 amended: title "Buy milk", empty snapshot, server
reply `todo7`, failure status 500. -/
theorem c4_create_inserts_only_after_success_witness :
    snapshotAtFirstIssue []
        (handleSubmitTrace "Buy milk" "" [] (.fulfilled todo7))
          = some [] ∧
    runSteps [] (handleSubmitTrace "Buy milk" "" [] (.fulfilled todo7))
        = todo7 :: [] ∧
    runSteps [] (handleSubmitTrace "Buy milk" "" [] (.rejectedStatus 500))
        = [] ∧
    runSteps [] (handleSubmitTrace "Buy milk" "" [] .rejectedNetwork)
        = [] ∧
    errorAfter (handleSubmitTrace "Buy milk" "" [] (.rejectedStatus 500))
        = some "Failed to create todo" :=
  c4_create_inserts_only_after_success "Buy milk" "" [] todo7 500 (by decide)

/-- C5 counterexample: deleting id 7 from the snapshot `[todo7]`
dispatches the delete request while the entry with id 7 is still in the
snapshot — the entry is not removed before the request is issued. -/
theorem c5_counterexample :
    snapshotAtFirstIssue [todo7] (handleDeleteTrace 7 [todo7] (.fulfilled ()))
        = some [todo7] ∧
    todo7.id = some 7 ∧
    snapshotAtFirstIssue [todo7] (handleDeleteTrace 7 [todo7] (.fulfilled ()))
        ≠ some (([todo7] : List Todo).filter fun t => t.id ≠ some 7) := by
  decide

/-- C5 amended: `handleDelete` dispatches the delete request against the
unchanged snapshot; only on fulfillment is the matching entry filtered
out, and on rejection the snapshot is unchanged (so nothing need be
reinserted) and the failure is surfaced as the delete error message. -/
theorem c5_delete_removes_only_after_success
    (id : Nat) (todos : List Todo) (code : Nat) :
    snapshotAtFirstIssue todos (handleDeleteTrace id todos (.fulfilled ()))
        = some todos ∧
    runSteps todos (handleDeleteTrace id todos (.fulfilled ()))
        = todos.filter (fun t => t.id ≠ some id) ∧
    runSteps todos (handleDeleteTrace id todos (.rejectedStatus code))
        = todos ∧
    runSteps todos (handleDeleteTrace id todos .rejectedNetwork) = todos ∧
    errorAfter (handleDeleteTrace id todos (.rejectedStatus code))
        = some "Failed to delete todo" := by
  refine ⟨rfl, ?_, rfl, rfl, rfl⟩
  simp [handleDeleteTrace, runSteps, applyStep]

/-- C6 counterexample: toggling `todo1` when the server's reply carries a
different representation (`serverTodo1`, renamed server-side) leaves the
snapshot holding the locally computed value, not the server's returned
representation — the server is not authoritative for the title it
changed. -/
theorem c6_counterexample :
    runSteps [todo1] (handleToggleTrace todo1 [todo1] (.fulfilled serverTodo1))
        = [{ todo1 with completed := true }] ∧
    ({ todo1 with completed := true } : Todo) ≠ serverTodo1 := by
  decide

/-- C6 amended: on a fulfilled update the snapshot entry for the id is
replaced by the locally computed toggled value; the server's returned
representation is discarded (the result does not depend on
`serverReply`). -/
theorem c6_update_ignores_server_reply
    (todo : Todo) (todos : List Todo) (serverReply : Todo) :
    runSteps todos (handleToggleTrace todo todos (.fulfilled serverReply))
        = todos.map (fun t =>
            if t.id = todo.id then { todo with completed := !todo.completed }
            else t) := by
  simp [handleToggleTrace, runSteps, applyStep]

/-- C7 counterexample: the schedule that dispatches both toggle requests
for id 1 before either completes is a legal interleaving of two
`handleToggleComplete` invocations, and after its first two steps two
update requests for id 1 are outstanding — the code does not make the
second update wait for the first to resolve. -/
theorem c7_counterexample :
    racySchedule ∈
        interleavings (handleToggleTrace todo1 [todo1] (.fulfilled todo1))
          (handleToggleTrace todo1 [todo1] (.fulfilled todo1)) ∧
    outstandingUpdatesFor (some 1) (racySchedule.take 2) = 2 := by
  decide

/-- C7 amended: updates for the same id are not serialized — a schedule
with two simultaneously outstanding requests is reachable — but each
completion overwrites the snapshot with the value computed from its
captured state, so for two overlapping toggles of the same todo captured
from the same snapshot every interleaving ends with the captured
snapshot carrying the toggled value (both handlers compute the same
value, hence last-completion-wins yields it regardless of completion
order). -/
theorem c7_overlapping_toggles_last_completion_wins
    (todo : Todo) (todos : List Todo) (r1 r2 : Todo) (sched : List UiStep)
    (h : sched ∈
      interleavings (handleToggleTrace todo todos (.fulfilled r1))
        (handleToggleTrace todo todos (.fulfilled r2))) :
    runSteps todos sched
      = todos.map (fun t =>
          if t.id = todo.id then { todo with completed := !todo.completed }
          else t) := by
  simp only [handleToggleTrace, interleavings, interleavingsAux,
    List.length_cons, List.length_nil, List.map, List.mem_append,
    List.mem_cons, List.not_mem_nil, or_false] at h
  rcases h with (h | h | h) | (h | h | h) <;> subst h <;>
    simp [runSteps, applyStep]

/-- Witness for C7 amended at the racy schedule over `todo1`. -/
theorem c7_overlapping_toggles_last_completion_wins_witness :
    runSteps [todo1] racySchedule
      = ([todo1] : List Todo).map (fun t =>
          if t.id = todo1.id then { todo1 with completed := !todo1.completed }
          else t) :=
  c7_overlapping_toggles_last_completion_wins todo1 [todo1] todo1 todo1
    racySchedule (by decide)

/-- C8: a create whose server request is rejected — with any HTTP error
status or a network error — leaves the snapshot exactly as it was before
the create, for every starting snapshot: no failed-draft entry is
retained. -/
theorem c8_failed_create_preserves_snapshot
    (title description : String) (todos : List Todo) (code : Nat) :
    runSteps todos
        (handleSubmitTrace title description todos (.rejectedStatus code))
          = todos ∧
    runSteps todos (handleSubmitTrace title description todos .rejectedNetwork)
        = todos := by
  constructor <;>
    · unfold handleSubmitTrace
      split <;> simp [runSteps, applyStep]

/-- C9 counterexample: deleting id 7 when no entry with id 7 is in the
snapshot reports no condition at all when the server call succeeds
(`errorAfter = none`), and when the server rejects it reports the same
generic message that a delete of a present id reports — the claimed
NotFound condition is never reported. -/
theorem c9_counterexample :
    errorAfter (handleDeleteTrace 7 [] (.fulfilled ())) = none ∧
    errorAfter (handleDeleteTrace 7 [] (.rejectedStatus 404))
        = some "Failed to delete todo" ∧
    errorAfter (handleDeleteTrace 7 [todo7] (.rejectedStatus 500))
        = some "Failed to delete todo" := by
  decide

/-- C9 amended: a delete or toggle targeting an id with no matching
snapshot entry leaves the snapshot unchanged for every server outcome
and never raises an unhandled fault: either nothing is reported (server
success) or the generic delete/update failure message is reported
(server rejection); no NotFound-specific condition exists. -/
theorem c9_missing_id_is_noop_without_notfound
    (id : Nat) (todos : List Todo) (rd : AxiosOutcome Unit)
    (todo : Todo) (ru : AxiosOutcome Todo)
    (hd : ∀ t ∈ todos, t.id ≠ some id)
    (hu : ∀ t ∈ todos, t.id ≠ todo.id) :
    runSteps todos (handleDeleteTrace id todos rd) = todos ∧
    (errorAfter (handleDeleteTrace id todos rd) = none ∨
      errorAfter (handleDeleteTrace id todos rd)
        = some "Failed to delete todo") ∧
    runSteps todos (handleToggleTrace todo todos ru) = todos ∧
    (errorAfter (handleToggleTrace todo todos ru) = none ∨
      errorAfter (handleToggleTrace todo todos ru)
        = some "Failed to update todo") := by
  refine ⟨?_, ?_, ?_, ?_⟩
  · cases rd <;> simp [handleDeleteTrace, runSteps, applyStep]
    simpa using hd
  · cases rd <;> simp [handleDeleteTrace, errorAfter]
  · cases ru <;> simp [handleToggleTrace, runSteps, applyStep]
    exact map_id_of_no_match _ _ todos hu
  · cases ru <;> simp [handleToggleTrace, errorAfter]

/-- Witness for C9 amended: id 7 and `todo1` against the empty
snapshot, with fulfilled server calls. -/
theorem c9_missing_id_is_noop_without_notfound_witness :
    runSteps [] (handleDeleteTrace 7 [] (.fulfilled ())) = [] ∧
    (errorAfter (handleDeleteTrace 7 [] (.fulfilled ())) = none ∨
      errorAfter (handleDeleteTrace 7 [] (.fulfilled ()))
        = some "Failed to delete todo") ∧
    runSteps [] (handleToggleTrace todo1 [] (.fulfilled todo1)) = [] ∧
    (errorAfter (handleToggleTrace todo1 [] (.fulfilled todo1)) = none ∨
      errorAfter (handleToggleTrace todo1 [] (.fulfilled todo1))
        = some "Failed to update todo") :=
  c9_missing_id_is_noop_without_notfound 7 [] (.fulfilled ()) todo1
    (.fulfilled todo1) (by simp) (by simp)

/-- C10: registration never touches the credential state: for every
server outcome `handleSubmit` of `Register.js` leaves the auth state
exactly as it was, `register` returns the token store unchanged, and a
registration performed from the initial (unauthenticated) state leaves
the token store empty and `isAuthenticated()` false — the user must log
in separately. -/
theorem c10_register_preserves_auth_state
    (username email password : String) (resp : AxiosOutcome Unit)
    (s : AuthState) :
    (handleRegisterSubmit username email password resp s).1 = s ∧
    (registerService username email password resp s.token).1 = s.token ∧
    (handleRegisterSubmit username email password resp initialAuthState).1.token
        = none ∧
    isAuthenticated
        (handleRegisterSubmit username email password resp
            initialAuthState).1.token
          = false := by
  cases resp <;>
    simp [handleRegisterSubmit, registerService, initialAuthState,
      isAuthenticated]
